import Mathlib

/-!
Verification of the supabase-py client facade against its specification.

The development shallowly embeds the two source files
`supabase/client.py` (class SupabaseClient) and `supabase/async_client.py`
(class AsyncSupabaseClient).  Python strings become Lean `String`
(operating on the underlying `List Char`), Python dicts become
association lists with in-place-update semantics, and the one piece of
shared mutable state in the program (the module-level default
`ClientOptions()` object, whose headers dict is mutated in place by
`options.headers.update(...)` on every construction that omits the
`options` argument) is modelled by an explicit heap of dictionaries
addressed by natural numbers.  Raised Python exceptions become an
`Except` error value; the constructors also return the heap so that side
effects performed before a raise remain observable, exactly as in Python.
-/

/-! ## Python string and regex primitives used by the source -/

/-- Character class of the regex fragment [A-Za-z0-9-_=] appearing in the
API-key pattern of client.py line 47 and async_client.py line 48.  The
dash sits between two completed items, so it is a literal. -/
def isSegChar (c : Char) : Bool :=
  c.isAlpha || c.isDigit || c == '-' || c == '_' || c == '='

/-- Character class of the regex fragment [A-Za-z0-9-_.+/=] (the third
segment of the API-key pattern). -/
def isTailChar (c : Char) : Bool :=
  isSegChar c || c == '.' || c == '+' || c == '/'

/-- Matcher for the full-string part of the Python regex
^[A-Za-z0-9-_=]+\.[A-Za-z0-9-_=]+\.?[A-Za-z0-9-_.+/=]*$ on a list of
characters.  Writing A for the first class and B for the third, the
regex language is A+ . A+ \.? B*.  Because A contains no dot, the
mandatory A+ before the first dot is exactly the maximal A-prefix, and
because A and the dot are both contained in B the suffix A+ \.? B*
accepts precisely the nonempty strings over B whose first character lies
in A.  The matcher below decides exactly that language. -/
def matchesKeyCoreList (l : List Char) : Bool :=
  !(l.takeWhile isSegChar).isEmpty &&
    (match l.dropWhile isSegChar with
     | '.' :: c :: t => isSegChar c && t.all isTailChar
     | _ => false)

/-- Python re.match of the API-key pattern (client.py lines 46-48,
async_client.py line 48).  The pattern is anchored with a dollar, which
in Python also matches just before one trailing newline. -/
def reMatchKeyPattern (s : String) : Bool :=
  matchesKeyCoreList s.data ||
    (match s.data.getLast? with
     | some c => c == '\n' && matchesKeyCoreList s.data.dropLast
     | none => false)

/-- Python re.match of the URL pattern ^(https?)://.+ (client.py line 42,
async_client.py line 44): the string must start with http:// or https://
followed by at least one character, and the dot of the regex does not
match a newline. -/
def matchUrlList (l : List Char) : Bool :=
  match l with
  | 'h' :: 't' :: 't' :: 'p' :: 's' :: ':' :: '/' :: '/' :: c :: _ => c != '\n'
  | 'h' :: 't' :: 't' :: 'p' :: ':' :: '/' :: '/' :: c :: _ => c != '\n'
  | _ => false

/-- String wrapper for the URL pattern matcher. -/
def reMatchUrlPattern (s : String) : Bool :=
  matchUrlList s.data

/-- Decides whether pat occurs as a contiguous sublist anywhere. -/
def listContainsSub (pat : List Char) : List Char → Bool
  | [] => pat.isEmpty
  | c :: rest => pat.isPrefixOf (c :: rest) || listContainsSub pat rest

/-- Python re.search of the hosted-platform pattern
(supabase\.co)|(supabase\.in) (client.py line 58, async_client.py line
61): true iff one of the two literal substrings occurs anywhere in the
URL. -/
def reSearchPlatform (s : String) : Bool :=
  listContainsSub "supabase.co".data s.data || listContainsSub "supabase.in".data s.data

/-- Python str.replace of the fixed arguments ("http", "ws") as invoked
at client.py line 55 and async_client.py line 57: every non-overlapping
occurrence of http, scanned left to right, is replaced by ws. -/
def pyReplaceHttpWsList : List Char → List Char
  | 'h' :: 't' :: 't' :: 'p' :: rest => 'w' :: 's' :: pyReplaceHttpWsList rest
  | c :: rest => c :: pyReplaceHttpWsList rest
  | [] => []

/-- String wrapper for the http-to-ws replacement. -/
def pyReplaceHttpWs (s : String) : String :=
  ⟨pyReplaceHttpWsList s.data⟩

/-- Python str.split(".") on a list of characters: split at every dot,
keeping empty pieces, as used at client.py line 60 and async_client.py
line 63. -/
def pySplitDotList : List Char → List (List Char)
  | [] => [[]]
  | '.' :: rest => [] :: pySplitDotList rest
  | c :: rest =>
    match pySplitDotList rest with
    | [] => [[c]]
    | h :: t => (c :: h) :: t

/-- String wrapper for str.split("."). -/
def pySplitDot (s : String) : List String :=
  (pySplitDotList s.data).map String.mk

/-! ## Python dicts and the heap of shared dict objects -/

/-- A Python string-to-string dict, as an insertion-ordered association
list with unique keys. -/
abbrev HMap := List (String × String)

/-- Assignment d[k] = v: overwrite the value in place if the key is
present, otherwise append the new pair, preserving insertion order. -/
def hset : HMap → String → String → HMap
  | [], k, v => [(k, v)]
  | (k', v') :: rest, k, v =>
    if k' = k then (k, v) :: rest else (k', v') :: hset rest k v

/-- Python dict lookup d[k] returning an Option. -/
def hget : HMap → String → Option String
  | [], _ => none
  | (k', v') :: rest, k => if k' = k then some v' else hget rest k

/-- Python dict.update: fold the assignments of the right dict into the
left one. -/
def hupdate (m adds : HMap) : HMap :=
  adds.foldl (fun acc kv => hset acc kv.1 kv.2) m

/-- The heap of dict objects: an address-indexed family of dicts.  Every
address a Python program can hold refers to a live dict, so a total
function is the faithful model. -/
abbrev Heap := Nat → HMap

/-- Dereference a dict address. -/
def readRef (σ : Heap) (r : Nat) : HMap := σ r

/-- In-place replacement of the dict stored at an address. -/
def writeRef (σ : Heap) (r : Nat) (m : HMap) : Heap :=
  fun x => if x = r then m else σ x

/-! ## Exceptions and collaborator models -/

/-- The exceptions a facade construction can raise: SupabaseException
with its message (the ConfigurationError of the spec), or the built-in
IndexError escaping from the list indexing at client.py line 62 /
async_client.py line 65. -/
inductive SupabaseError where
  | supabaseException (msg : String)
  | indexError
  deriving DecidableEq

/-- Modelled from the spec: supabase/lib/client_options.py is not under
src/.  Section 6 of the spec lists the recognized fields of the options
structure: schema (string, default public), headers (mapping, default
empty; here the address of the headers dict, since the dict is a shared
mutable object), auto_refresh_token (bool), persist_session (bool),
local_storage (opaque handle), timeout (duration or structured value,
default collaborator-defined, hence an Option). -/
structure ClientOptions where
  schema : String
  headersRef : Nat
  auto_refresh_token : Bool
  persist_session : Bool
  local_storage : Unit
  timeout : Option Nat
  deriving DecidableEq

/-- Collaborator model: the GoTrue auth client, constructed from
(authURL, autoRefreshToken, persistSession, localStorage, headers). -/
structure SupabaseAuthClient where
  url : String
  auto_refresh_token : Bool
  persist_session : Bool
  local_storage : Unit
  headersRef : Nat
  deriving DecidableEq

/-- Collaborator model: the storage client, constructed from
(storageURL, headers); it receives a freshly built plain dict. -/
structure SupabaseStorageClient where
  url : String
  headers : HMap
  deriving DecidableEq

/-- Collaborator model: the functions client, constructed from
(functionsURL, headers). -/
structure FunctionsClient where
  url : String
  headers : HMap
  deriving DecidableEq

/-- Collaborator model: the table-scoped request builder produced by the
blocking postgrest client, recording the targeted table and schema. -/
structure SyncRequestBuilder where
  table : String
  schema : String
  deriving DecidableEq

/-- Collaborator model: the blocking postgrest query-builder client,
constructed from (restURL, headers, schema, timeout); auth(token)
records the bearer token. -/
structure SyncPostgrestClient where
  base_url : String
  headersRef : Nat
  schema : String
  timeout : Nat
  token : Option String
  deriving DecidableEq

/-- The postgrest collaborator default DEFAULT_POSTGREST_CLIENT_TIMEOUT
imported by both source files; its numeric value is irrelevant to the
facade, which never inspects it. -/
def DEFAULT_POSTGREST_CLIENT_TIMEOUT : Nat := 120

/-- from_ on the blocking postgrest client: the table-scoped request
builder for the given name under the client schema. -/
def SyncPostgrestClient.from_ (c : SyncPostgrestClient) (table_name : String) : SyncRequestBuilder :=
  { table := table_name, schema := c.schema }

/-! ## The blocking facade: supabase/client.py -/

/-- The SupabaseClient facade after a successful construction. -/
structure SupabaseClient where
  supabase_url : String
  supabase_key : String
  rest_url : String
  realtime_url : String
  auth_url : String
  storage_url : String
  functions_url : String
  schema : String
  headersRef : Nat
  auth : SupabaseAuthClient
  realtime : Option Unit
  postgrest : SyncPostgrestClient
  deriving DecidableEq

/-- client.py lines 58-66: the functions URL.  When the platform pattern
is found anywhere in the URL, the whole URL is split on dots and parts
0, 1 and 2 are reassembled around a functions label; indexing beyond the
end of the parts list raises IndexError. -/
def syncFunctionsUrl (supabase_url : String) : Except SupabaseError String :=
  if reSearchPlatform supabase_url then
    match (pySplitDot supabase_url)[0]?, (pySplitDot supabase_url)[1]?, (pySplitDot supabase_url)[2]? with
    | some p0, some p1, some p2 => Except.ok (p0 ++ ".functions." ++ p1 ++ "." ++ p2)
    | _, _, _ => Except.error SupabaseError.indexError
  else Except.ok (supabase_url ++ "/functions/v1")

/-- client.py lines 142-155: _init_postgrest_client builds the blocking
postgrest client from (rest_url, headers, schema, timeout) and then
calls client.auth(token=supabase_key).  The timeout parameter of the
helper defaults to DEFAULT_POSTGREST_CLIENT_TIMEOUT. -/
def SupabaseClient.init_postgrest_client (rest_url supabase_key : String)
    (headersRef : Nat) (schema : String) (timeout : Nat) : SyncPostgrestClient :=
  { base_url := rest_url, headersRef := headersRef, schema := schema,
    timeout := timeout, token := some supabase_key }

/-- client.py lines 17-85: SupabaseClient.__init__.  The four validation
checks run first, in source order; on success the auth headers are
merged in place into the options headers dict (line 53), the five URLs
are derived (lines 54-66, where the functions URL can raise IndexError
after the merge has already happened), and the auth and postgrest
sub-clients are built.  The call at lines 80-85 passes no timeout
argument, so init_postgrest_client receives its parameter default
DEFAULT_POSTGREST_CLIENT_TIMEOUT. -/
def SupabaseClient.init (supabase_url supabase_key : String)
    (options : ClientOptions) (σ : Heap) : Except SupabaseError SupabaseClient × Heap :=
  if supabase_url = "" then
    (Except.error (SupabaseError.supabaseException "supabase_url is required"), σ)
  else if supabase_key = "" then
    (Except.error (SupabaseError.supabaseException "supabase_key is required"), σ)
  else if reMatchUrlPattern supabase_url = false then
    (Except.error (SupabaseError.supabaseException "Invalid URL"), σ)
  else if reMatchKeyPattern supabase_key = false then
    (Except.error (SupabaseError.supabaseException "Invalid API key"), σ)
  else
    let σ1 := writeRef σ options.headersRef
      (hupdate (readRef σ options.headersRef)
        [("apiKey", supabase_key), ("Authorization", "Bearer " ++ supabase_key)])
    match syncFunctionsUrl supabase_url with
    | Except.error e => (Except.error e, σ1)
    | Except.ok functions_url =>
      (Except.ok
        { supabase_url := supabase_url
          supabase_key := supabase_key
          rest_url := supabase_url ++ "/rest/v1"
          realtime_url := pyReplaceHttpWs (supabase_url ++ "/realtime/v1")
          auth_url := supabase_url ++ "/auth/v1"
          storage_url := supabase_url ++ "/storage/v1"
          functions_url := functions_url
          schema := options.schema
          headersRef := options.headersRef
          auth :=
            { url := supabase_url ++ "/auth/v1"
              auto_refresh_token := options.auto_refresh_token
              persist_session := options.persist_session
              local_storage := options.local_storage
              headersRef := options.headersRef }
          realtime := none
          postgrest := SupabaseClient.init_postgrest_client (supabase_url ++ "/rest/v1")
            supabase_key options.headersRef options.schema DEFAULT_POSTGREST_CLIENT_TIMEOUT },
        σ1)

/-- client.py lines 157-169: _get_auth_headers builds a fresh dict with
the two fixed auth headers. -/
def SupabaseClient.get_auth_headers (c : SupabaseClient) : HMap :=
  [("apiKey", c.supabase_key), ("Authorization", "Bearer " ++ c.supabase_key)]

/-- client.py lines 87-88: functions() builds a new functions client
each call from the functions URL and fresh auth headers. -/
def SupabaseClient.functions (c : SupabaseClient) : FunctionsClient :=
  { url := c.functions_url, headers := c.get_auth_headers }

/-- client.py lines 90-92: storage() builds a new storage client each
call from the storage URL and fresh auth headers. -/
def SupabaseClient.storage (c : SupabaseClient) : SupabaseStorageClient :=
  { url := c.storage_url, headers := c.get_auth_headers }

/-- client.py lines 103-108: from_ delegates to the postgrest client. -/
def SupabaseClient.from_ (c : SupabaseClient) (table_name : String) : SyncRequestBuilder :=
  c.postgrest.from_ table_name

/-- client.py lines 94-101: table delegates to from_. -/
def SupabaseClient.table (c : SupabaseClient) (table_name : String) : SyncRequestBuilder :=
  c.from_ table_name

/-! ## The suspendable facade: supabase/async_client.py -/

/-- Collaborator model: the table-scoped request builder produced by the
suspendable postgrest client. -/
structure AsyncRequestBuilder where
  table : String
  schema : String
  deriving DecidableEq

/-- Collaborator model: the suspendable postgrest query-builder client,
constructed from (restURL, headers, schema, timeout); auth(token)
records the bearer token. -/
structure AsyncPostgrestClient where
  base_url : String
  headersRef : Nat
  schema : String
  timeout : Nat
  token : Option String
  deriving DecidableEq

/-- from_ on the suspendable postgrest client. -/
def AsyncPostgrestClient.from_ (c : AsyncPostgrestClient) (table_name : String) : AsyncRequestBuilder :=
  { table := table_name, schema := c.schema }

/-- The AsyncSupabaseClient facade after a successful construction. -/
structure AsyncSupabaseClient where
  supabase_url : String
  supabase_key : String
  rest_url : String
  realtime_url : String
  auth_url : String
  storage_url : String
  functions_url : String
  schema : String
  headersRef : Nat
  auth : SupabaseAuthClient
  realtime : Option Unit
  postgrest : AsyncPostgrestClient
  deriving DecidableEq

/-- async_client.py lines 61-68: the functions URL, written out in that
file with the same logic as in client.py. -/
def asyncFunctionsUrl (supabase_url : String) : Except SupabaseError String :=
  if reSearchPlatform supabase_url then
    match (pySplitDot supabase_url)[0]?, (pySplitDot supabase_url)[1]?, (pySplitDot supabase_url)[2]? with
    | some p0, some p1, some p2 => Except.ok (p0 ++ ".functions." ++ p1 ++ "." ++ p2)
    | _, _, _ => Except.error SupabaseError.indexError
  else Except.ok (supabase_url ++ "/functions/v1")

/-- async_client.py lines 158-171: _init_postgrest_client for the
suspendable postgrest client, with the same parameter default. -/
def AsyncSupabaseClient.init_postgrest_client (rest_url supabase_key : String)
    (headersRef : Nat) (schema : String) (timeout : Nat) : AsyncPostgrestClient :=
  { base_url := rest_url, headersRef := headersRef, schema := schema,
    timeout := timeout, token := some supabase_key }

/-- async_client.py lines 19-88: AsyncSupabaseClient.__init__, with the
same checks, messages, header merge and URL derivations as the blocking
variant. -/
def AsyncSupabaseClient.init (supabase_url supabase_key : String)
    (options : ClientOptions) (σ : Heap) : Except SupabaseError AsyncSupabaseClient × Heap :=
  if supabase_url = "" then
    (Except.error (SupabaseError.supabaseException "supabase_url is required"), σ)
  else if supabase_key = "" then
    (Except.error (SupabaseError.supabaseException "supabase_key is required"), σ)
  else if reMatchUrlPattern supabase_url = false then
    (Except.error (SupabaseError.supabaseException "Invalid URL"), σ)
  else if reMatchKeyPattern supabase_key = false then
    (Except.error (SupabaseError.supabaseException "Invalid API key"), σ)
  else
    let σ1 := writeRef σ options.headersRef
      (hupdate (readRef σ options.headersRef)
        [("apiKey", supabase_key), ("Authorization", "Bearer " ++ supabase_key)])
    match asyncFunctionsUrl supabase_url with
    | Except.error e => (Except.error e, σ1)
    | Except.ok functions_url =>
      (Except.ok
        { supabase_url := supabase_url
          supabase_key := supabase_key
          rest_url := supabase_url ++ "/rest/v1"
          realtime_url := pyReplaceHttpWs (supabase_url ++ "/realtime/v1")
          auth_url := supabase_url ++ "/auth/v1"
          storage_url := supabase_url ++ "/storage/v1"
          functions_url := functions_url
          schema := options.schema
          headersRef := options.headersRef
          auth :=
            { url := supabase_url ++ "/auth/v1"
              auto_refresh_token := options.auto_refresh_token
              persist_session := options.persist_session
              local_storage := options.local_storage
              headersRef := options.headersRef }
          realtime := none
          postgrest := AsyncSupabaseClient.init_postgrest_client (supabase_url ++ "/rest/v1")
            supabase_key options.headersRef options.schema DEFAULT_POSTGREST_CLIENT_TIMEOUT },
        σ1)

/-- async_client.py lines 173-179: _get_auth_headers. -/
def AsyncSupabaseClient.get_auth_headers (c : AsyncSupabaseClient) : HMap :=
  [("apiKey", c.supabase_key), ("Authorization", "Bearer " ++ c.supabase_key)]

/-- async_client.py lines 96-98: functions(). -/
def AsyncSupabaseClient.functions (c : AsyncSupabaseClient) : FunctionsClient :=
  { url := c.functions_url, headers := c.get_auth_headers }

/-- async_client.py lines 100-102: storage(). -/
def AsyncSupabaseClient.storage (c : AsyncSupabaseClient) : SupabaseStorageClient :=
  { url := c.storage_url, headers := c.get_auth_headers }

/-- async_client.py lines 113-117: on delegates to the postgrest client. -/
def AsyncSupabaseClient.on (c : AsyncSupabaseClient) (table_name : String) : AsyncRequestBuilder :=
  c.postgrest.from_ table_name

/-- async_client.py lines 119-124: from_ delegates to the postgrest
client. -/
def AsyncSupabaseClient.from_ (c : AsyncSupabaseClient) (table_name : String) : AsyncRequestBuilder :=
  c.postgrest.from_ table_name

/-- async_client.py lines 104-111: table delegates to on. -/
def AsyncSupabaseClient.table (c : AsyncSupabaseClient) (table_name : String) : AsyncRequestBuilder :=
  c.on table_name

/-! ## Concrete fixtures and observation helpers -/

/-- The module-level heap at import time: every address holds an empty
dict; in particular address 0, used below for the headers dict of the
shared default options object. -/
def defaultHeap : Heap := fun _ => []

/-- The default argument ClientOptions() of both constructors.  Python
evaluates a default argument once, at function definition time, so every
call that omits the options argument receives this one object; its
headers dict lives at address 0 of the heap. -/
def defaultOptions : ClientOptions :=
  { schema := "public", headersRef := 0, auto_refresh_token := true,
    persist_session := true, local_storage := (), timeout := none }

/-- The merged headers dict as observable after a blocking construction:
the dict the facade (and its postgrest and auth sub-clients) reference,
read in the post-construction heap. -/
def obsMergedHeaders (url key : String) (o : ClientOptions) (σ : Heap) : Option HMap :=
  match SupabaseClient.init url key o σ with
  | (Except.ok c, σ') => some (readRef σ' c.headersRef)
  | (Except.error _, _) => none

/-- The headers handed to a storage client obtained from the accessor
after a blocking construction. -/
def obsStorageHeaders (url key : String) (o : ClientOptions) (σ : Heap) : Option HMap :=
  match SupabaseClient.init url key o σ with
  | (Except.ok c, _) => some c.storage.headers
  | (Except.error _, _) => none

/-- The headers handed to a functions client obtained from the accessor
after a blocking construction. -/
def obsFunctionsHeaders (url key : String) (o : ClientOptions) (σ : Heap) : Option HMap :=
  match SupabaseClient.init url key o σ with
  | (Except.ok c, _) => some c.functions.headers
  | (Except.error _, _) => none

/-- The derived realtime URL of a successful blocking construction. -/
def obsRealtimeUrl (url key : String) (o : ClientOptions) (σ : Heap) : Option String :=
  match SupabaseClient.init url key o σ with
  | (Except.ok c, _) => some c.realtime_url
  | (Except.error _, _) => none

/-- The derived functions URL of a successful blocking construction. -/
def obsFunctionsUrl (url key : String) (o : ClientOptions) (σ : Heap) : Option String :=
  match SupabaseClient.init url key o σ with
  | (Except.ok c, _) => some c.functions_url
  | (Except.error _, _) => none

/-- The timeout the postgrest collaborator was constructed with, for a
successful blocking construction. -/
def obsPostgrestTimeout (url key : String) (o : ClientOptions) (σ : Heap) : Option Nat :=
  match SupabaseClient.init url key o σ with
  | (Except.ok c, _) => some c.postgrest.timeout
  | (Except.error _, _) => none

/-- Whether a blocking construction succeeds. -/
def constructionSucceeds (url key : String) (o : ClientOptions) (σ : Heap) : Bool :=
  match SupabaseClient.init url key o σ with
  | (Except.ok _, _) => true
  | (Except.error _, _) => false

/-- Whether a suspendable construction succeeds. -/
def constructionSucceedsAsync (url key : String) (o : ClientOptions) (σ : Heap) : Bool :=
  match AsyncSupabaseClient.init url key o σ with
  | (Except.ok _, _) => true
  | (Except.error _, _) => false

/-! ## Spec-side definitions -/

/-- The validation order stated by the spec (section 4.1): empty URL,
then empty key, then the URL pattern, then the key pattern, each with
the message the code attaches; none when all four checks pass. -/
def statedValidationError (url key : String) : Option String :=
  if url = "" then some "supabase_url is required"
  else if key = "" then some "supabase_key is required"
  else if reMatchUrlPattern url = false then some "Invalid URL"
  else if reMatchKeyPattern key = false then some "Invalid API key"
  else none

/-- The amended functions-URL rule of claim C3, stated on the spec side
for comparison with the code: when the platform pattern occurs anywhere
in the base URL, the whole URL (scheme included) is split on dots and
parts 0, 1 and 2 are reassembled around a functions label, discarding
any later parts (none when fewer than three parts exist); otherwise the
generic suffix rule applies. -/
def amendedFunctionsUrlSpec (base : String) : Option String :=
  if reSearchPlatform base then
    match (pySplitDot base)[0]?, (pySplitDot base)[1]?, (pySplitDot base)[2]? with
    | some p0, some p1, some p2 => some (p0 ++ ".functions." ++ p1 ++ "." ++ p2)
    | _, _, _ => none
  else some (base ++ "/functions/v1")

/-! ## Helper lemmas -/

theorem hget_hset_eq (m : HMap) (k v : String) : hget (hset m k v) k = some v := by
  induction m with
  | nil => simp [hset, hget]
  | cons p rest ih =>
    by_cases h : p.1 = k
    · simp [hset, h, hget]
    · simp [hset, h, hget, ih]

theorem hget_hset_ne (m : HMap) (k k' v : String) (h : k ≠ k') :
    hget (hset m k v) k' = hget m k' := by
  induction m with
  | nil => simp [hset, hget, h]
  | cons p rest ih =>
    by_cases hp : p.1 = k
    · simp [hset, hp, hget, h]
    · simp [hset, hp, hget, ih]

theorem readRef_writeRef (σ : Heap) (r : Nat) (m : HMap) :
    readRef (writeRef σ r m) r = m := by
  simp [readRef, writeRef]

/-! ## Further observation helpers and fixtures -/

/-- The exception a blocking construction raises, if any. -/
def obsError (url key : String) (o : ClientOptions) (σ : Heap) : Option SupabaseError :=
  match SupabaseClient.init url key o σ with
  | (Except.error e, _) => some e
  | (Except.ok _, _) => none

/-- The exception a suspendable construction raises, if any. -/
def obsErrorAsync (url key : String) (o : ClientOptions) (σ : Heap) : Option SupabaseError :=
  match AsyncSupabaseClient.init url key o σ with
  | (Except.error e, _) => some e
  | (Except.ok _, _) => none

/-- The Authorization entry of the headers dict referenced by the first
facade, read right after its own construction (with the options argument
omitted, hence the shared default options object). -/
def firstClientAuthBeforeSecond (url1 key1 : String) : Option String :=
  match SupabaseClient.init url1 key1 defaultOptions defaultHeap with
  | (Except.ok c1, σ1) => hget (readRef σ1 c1.headersRef) "Authorization"
  | (Except.error _, _) => none

/-- The Authorization entry of the headers dict referenced by the first
facade, read after a second construction that also omits the options
argument and therefore updates the same shared dict. -/
def firstClientAuthAfterSecond (url1 key1 url2 key2 : String) : Option String :=
  match SupabaseClient.init url1 key1 defaultOptions defaultHeap with
  | (Except.ok c1, σ1) =>
    hget (readRef (SupabaseClient.init url2 key2 defaultOptions σ1).2 c1.headersRef) "Authorization"
  | (Except.error _, _) => none

/-- Options that specify a timeout value of 5. -/
def optionsWithTimeout : ClientOptions :=
  { defaultOptions with timeout := some 5 }

/-- Everything claim C8 compares about a blocking construction: the
outcome (the exact error, or the five derived URLs, the schema and the
merged headers dict) together with the final heap. -/
def syncObserved (url key : String) (o : ClientOptions) (σ : Heap) :
    Except SupabaseError (String × String × String × String × String × String × HMap) × Heap :=
  match SupabaseClient.init url key o σ with
  | (Except.ok c, σ') =>
    (Except.ok (c.rest_url, c.realtime_url, c.auth_url, c.storage_url, c.functions_url, c.schema,
      readRef σ' c.headersRef), σ')
  | (Except.error e, σ') => (Except.error e, σ')

/-- The same observation for a suspendable construction. -/
def asyncObserved (url key : String) (o : ClientOptions) (σ : Heap) :
    Except SupabaseError (String × String × String × String × String × String × HMap) × Heap :=
  match AsyncSupabaseClient.init url key o σ with
  | (Except.ok c, σ') =>
    (Except.ok (c.rest_url, c.realtime_url, c.auth_url, c.storage_url, c.functions_url, c.schema,
      readRef σ' c.headersRef), σ')
  | (Except.error e, σ') => (Except.error e, σ')

/-! ## Characterization of a successful blocking construction -/

theorem init_ok_fields (url key : String) (o : ClientOptions) (σ : Heap)
    (c : SupabaseClient) (σ' : Heap)
    (h : SupabaseClient.init url key o σ = (Except.ok c, σ')) :
    c.supabase_key = key ∧
    c.headersRef = o.headersRef ∧
    c.schema = o.schema ∧
    σ' = writeRef σ o.headersRef (hupdate (readRef σ o.headersRef)
      [("apiKey", key), ("Authorization", "Bearer " ++ key)]) ∧
    c.rest_url = url ++ "/rest/v1" ∧
    c.realtime_url = pyReplaceHttpWs (url ++ "/realtime/v1") ∧
    c.auth_url = url ++ "/auth/v1" ∧
    c.storage_url = url ++ "/storage/v1" ∧
    syncFunctionsUrl url = Except.ok c.functions_url ∧
    c.postgrest.timeout = DEFAULT_POSTGREST_CLIENT_TIMEOUT := by
  simp only [SupabaseClient.init] at h
  split at h
  · simp at h
  split at h
  · simp at h
  split at h
  · simp at h
  split at h
  · simp at h
  split at h
  · simp at h
  rename_i functions_url heq
  simp only [Prod.mk.injEq, Except.ok.injEq] at h
  obtain ⟨h1, h2⟩ := h
  subst h1
  subst h2
  refine ⟨rfl, rfl, rfl, rfl, rfl, rfl, rfl, rfl, ?_, rfl⟩
  exact heq

theorem amendedFunctionsUrlSpec_of_ok (u s : String) (h : syncFunctionsUrl u = Except.ok s) :
    amendedFunctionsUrlSpec u = some s := by
  unfold syncFunctionsUrl at h
  unfold amendedFunctionsUrlSpec
  by_cases hp : reSearchPlatform u
  · rw [if_pos hp] at h
    rw [if_pos hp]
    split at h
    · simp only [Except.ok.injEq] at h
      rw [h]
    · exact absurd h (by simp)
  · rw [if_neg hp] at h
    rw [if_neg hp]
    simp only [Except.ok.injEq] at h
    rw [h]

/-! ## Claims -/

/-- C1: the claim says the realtime URL replaces only the leading scheme
token and leaves other occurrences of http unchanged.  Evaluating the
code on the valid base URL http://httpbin.org shows the construction
instead rewrites every occurrence, producing ws://wsbin.org/realtime/v1
rather than the ws://httpbin.org/realtime/v1 the claim requires. -/
theorem realtime_url_global_replace_eval :
    obsRealtimeUrl "http://httpbin.org" "a.b.c" defaultOptions defaultHeap =
      some "ws://wsbin.org/realtime/v1" ∧
    some "ws://wsbin.org/realtime/v1" ≠ some "ws://httpbin.org/realtime/v1" := by
  decide

/-- C2: the claim says a key that is not three dot-separated URL-safe
base64-like segments is rejected, in particular a two-segment key.  The
key abc.def has exactly two dot-separated segments, yet it matches the
validation pattern of the code and both facade constructions succeed
with it. -/
theorem two_segment_key_accepted_eval :
    reMatchKeyPattern "abc.def" = true ∧
    pySplitDot "abc.def" = ["abc", "def"] ∧
    constructionSucceeds "https://example.com" "abc.def" defaultOptions defaultHeap = true ∧
    constructionSucceedsAsync "https://example.com" "abc.def" defaultOptions defaultHeap = true := by
  decide

/-- C3 counterexample: at the very example of the claim, the base URL
https://abcxyz.supabase.co, the code derives the functions URL
https://abcxyz.functions.supabase.co, which is not the
abcxyz.functions.supabase.co the claim states: the scheme is kept. -/
theorem functions_url_keeps_scheme :
    obsFunctionsUrl "https://abcxyz.supabase.co" "a.b.c" defaultOptions defaultHeap =
      some "https://abcxyz.functions.supabase.co" ∧
    some "https://abcxyz.functions.supabase.co" ≠ some "abcxyz.functions.supabase.co" := by
  decide

/-- C3 amended: for every construction that succeeds, the derived
functions URL follows the amended rule: when the platform pattern occurs
anywhere in the base URL, the whole URL (scheme included) is split on
dots and parts 0, 1 and 2 are reassembled around a functions label,
discarding later parts; otherwise it is the base URL with the
/functions/v1 suffix. -/
theorem functions_url_follows_amended_rule (url key : String) (o : ClientOptions) (σ : Heap)
    (f : String) (h : obsFunctionsUrl url key o σ = some f) :
    amendedFunctionsUrlSpec url = some f := by
  unfold obsFunctionsUrl at h
  split at h
  · rename_i c σ' heq
    simp only [Option.some.injEq] at h
    subst h
    exact amendedFunctionsUrlSpec_of_ok url c.functions_url
      ((init_ok_fields url key o σ c σ' heq).2.2.2.2.2.2.2.2.1)
  · exact Option.noConfusion h

/-- C3 witness: the amended rule evaluated at the hosted-platform
example produces the scheme-keeping URL. -/
theorem functions_url_follows_amended_rule_witness :
    amendedFunctionsUrlSpec "https://abcxyz.supabase.co" =
      some "https://abcxyz.functions.supabase.co" :=
  functions_url_follows_amended_rule "https://abcxyz.supabase.co" "a.b.c" defaultOptions
    defaultHeap "https://abcxyz.functions.supabase.co" (by decide)

/-- C4: the claim says a later construction cannot change the header
mapping observed by an earlier facade.  Because the default options
object is created once and shared, and each construction updates its
headers dict in place, a second construction with a different key
overwrites the Authorization entry the first facade references: right
after the first construction it reads Bearer a.a.a, after the second it
reads Bearer b.b.b. -/
theorem shared_default_options_headers_mutated :
    firstClientAuthBeforeSecond "https://example.com" "a.a.a" = some "Bearer a.a.a" ∧
    firstClientAuthAfterSecond "https://example.com" "a.a.a" "https://example.org" "b.b.b" =
      some "Bearer b.b.b" ∧
    some "Bearer b.b.b" ≠ some "Bearer a.a.a" := by
  decide

/-- C5: whenever the stated validation order (empty URL, empty key, URL
pattern, key pattern) reports a failure, both facade constructions raise
exactly that configuration error and perform no side effect at all: the
heap is returned unchanged and no sub-client exists. -/
theorem construction_validation_order (url key : String) (o : ClientOptions) (σ : Heap)
    (e : String) (h : statedValidationError url key = some e) :
    SupabaseClient.init url key o σ = (Except.error (SupabaseError.supabaseException e), σ) ∧
    AsyncSupabaseClient.init url key o σ = (Except.error (SupabaseError.supabaseException e), σ) := by
  unfold statedValidationError at h
  unfold SupabaseClient.init AsyncSupabaseClient.init
  by_cases h1 : url = ""
  · rw [if_pos h1] at h
    simp only [Option.some.injEq] at h
    subst h
    refine ⟨?_, ?_⟩ <;> rw [if_pos h1]
  by_cases h2 : key = ""
  · rw [if_neg h1, if_pos h2] at h
    simp only [Option.some.injEq] at h
    subst h
    refine ⟨?_, ?_⟩ <;> rw [if_neg h1, if_pos h2]
  by_cases h3 : reMatchUrlPattern url = false
  · rw [if_neg h1, if_neg h2, if_pos h3] at h
    simp only [Option.some.injEq] at h
    subst h
    refine ⟨?_, ?_⟩ <;> rw [if_neg h1, if_neg h2, if_pos h3]
  by_cases h4 : reMatchKeyPattern key = false
  · rw [if_neg h1, if_neg h2, if_neg h3, if_pos h4] at h
    simp only [Option.some.injEq] at h
    subst h
    refine ⟨?_, ?_⟩ <;> rw [if_neg h1, if_neg h2, if_neg h3, if_pos h4]
  rw [if_neg h1, if_neg h2, if_neg h3, if_neg h4] at h
  exact Option.noConfusion h

/-- C5 witness: with an empty base URL both constructions fail with the
missing-URL error and leave the heap untouched. -/
theorem construction_validation_order_witness :
    SupabaseClient.init "" "a.b.c" defaultOptions defaultHeap =
      (Except.error (SupabaseError.supabaseException "supabase_url is required"), defaultHeap) ∧
    AsyncSupabaseClient.init "" "a.b.c" defaultOptions defaultHeap =
      (Except.error (SupabaseError.supabaseException "supabase_url is required"), defaultHeap) :=
  construction_validation_order "" "a.b.c" defaultOptions defaultHeap
    "supabase_url is required" (by decide)

/-- C6 counterexample: options specifying a timeout of 5 do not reach
the query-builder collaborator, which is constructed with the default
timeout instead. -/
theorem options_timeout_ignored :
    optionsWithTimeout.timeout = some 5 ∧
    obsPostgrestTimeout "https://example.com" "a.b.c" optionsWithTimeout defaultHeap =
      some DEFAULT_POSTGREST_CLIENT_TIMEOUT ∧
    DEFAULT_POSTGREST_CLIENT_TIMEOUT ≠ 5 := by
  decide

/-- C6 amended: for every successful construction, whatever the options
say, the query-builder collaborator is constructed with its own default
timeout; the timeout field of the options is never forwarded. -/
theorem postgrest_timeout_always_default (url key : String) (o : ClientOptions) (σ : Heap)
    (h : constructionSucceeds url key o σ = true) :
    obsPostgrestTimeout url key o σ = some DEFAULT_POSTGREST_CLIENT_TIMEOUT := by
  unfold obsPostgrestTimeout
  split
  · rename_i c σ' heq
    rw [(init_ok_fields url key o σ c σ' heq).2.2.2.2.2.2.2.2.2]
  · rename_i e σ' heq
    unfold constructionSucceeds at h
    rw [heq] at h
    exact absurd h (by simp)

/-- C6 witness: a construction with options specifying a timeout of 5
still hands the collaborator its default. -/
theorem postgrest_timeout_always_default_witness :
    obsPostgrestTimeout "https://example.com" "a.b.c" optionsWithTimeout defaultHeap =
      some DEFAULT_POSTGREST_CLIENT_TIMEOUT :=
  postgrest_timeout_always_default "https://example.com" "a.b.c" optionsWithTimeout defaultHeap
    (by decide)

/-- C7: for every successful construction, the merged header mapping
produced at construction, and the freshly computed mappings handed to
the storage and functions accessors, map apiKey to the configured key
and Authorization to Bearer followed by the key. -/
theorem auth_headers_present (url key : String) (o : ClientOptions) (σ : Heap) :
    (∀ m, obsMergedHeaders url key o σ = some m →
      hget m "apiKey" = some key ∧ hget m "Authorization" = some ("Bearer " ++ key)) ∧
    (∀ m, obsStorageHeaders url key o σ = some m →
      hget m "apiKey" = some key ∧ hget m "Authorization" = some ("Bearer " ++ key)) ∧
    (∀ m, obsFunctionsHeaders url key o σ = some m →
      hget m "apiKey" = some key ∧ hget m "Authorization" = some ("Bearer " ++ key)) := by
  have hne : ("Authorization" : String) ≠ "apiKey" := by decide
  refine ⟨?_, ?_, ?_⟩
  · intro m h
    unfold obsMergedHeaders at h
    split at h
    · rename_i c σ' heq
      simp only [Option.some.injEq] at h
      subst h
      obtain ⟨hk, href, hschema, hσ, hrest⟩ := init_ok_fields url key o σ c σ' heq
      rw [href, hσ, readRef_writeRef]
      constructor
      · show hget (hset (hset (readRef σ o.headersRef) "apiKey" key) "Authorization"
          ("Bearer " ++ key)) "apiKey" = some key
        rw [hget_hset_ne _ _ _ _ hne, hget_hset_eq]
      · show hget (hset (hset (readRef σ o.headersRef) "apiKey" key) "Authorization"
          ("Bearer " ++ key)) "Authorization" = some ("Bearer " ++ key)
        rw [hget_hset_eq]
    · exact Option.noConfusion h
  · intro m h
    unfold obsStorageHeaders at h
    split at h
    · rename_i c σ' heq
      simp only [Option.some.injEq] at h
      subst h
      obtain ⟨hk, hrest⟩ := init_ok_fields url key o σ c σ' heq
      simp [SupabaseClient.storage, SupabaseClient.get_auth_headers, hget, hk]
    · exact Option.noConfusion h
  · intro m h
    unfold obsFunctionsHeaders at h
    split at h
    · rename_i c σ' heq
      simp only [Option.some.injEq] at h
      subst h
      obtain ⟨hk, hrest⟩ := init_ok_fields url key o σ c σ' heq
      simp [SupabaseClient.functions, SupabaseClient.get_auth_headers, hget, hk]
    · exact Option.noConfusion h

/-- C7 witness: for the valid key a.b.c the merged mapping and the
accessor mappings carry the two auth headers. -/
theorem auth_headers_present_witness :
    (hget [("apiKey", "a.b.c"), ("Authorization", "Bearer a.b.c")] "apiKey" = some "a.b.c" ∧
      hget [("apiKey", "a.b.c"), ("Authorization", "Bearer a.b.c")] "Authorization" =
        some ("Bearer " ++ "a.b.c")) ∧
    (hget [("apiKey", "a.b.c"), ("Authorization", "Bearer a.b.c")] "apiKey" = some "a.b.c" ∧
      hget [("apiKey", "a.b.c"), ("Authorization", "Bearer a.b.c")] "Authorization" =
        some ("Bearer " ++ "a.b.c")) ∧
    (hget [("apiKey", "a.b.c"), ("Authorization", "Bearer a.b.c")] "apiKey" = some "a.b.c" ∧
      hget [("apiKey", "a.b.c"), ("Authorization", "Bearer a.b.c")] "Authorization" =
        some ("Bearer " ++ "a.b.c")) :=
  ⟨(auth_headers_present "https://example.com" "a.b.c" defaultOptions defaultHeap).1
      [("apiKey", "a.b.c"), ("Authorization", "Bearer a.b.c")] (by decide),
    (auth_headers_present "https://example.com" "a.b.c" defaultOptions defaultHeap).2.1
      [("apiKey", "a.b.c"), ("Authorization", "Bearer a.b.c")] (by decide),
    (auth_headers_present "https://example.com" "a.b.c" defaultOptions defaultHeap).2.2
      [("apiKey", "a.b.c"), ("Authorization", "Bearer a.b.c")] (by decide)⟩

/-- C8: on every input triple and heap the blocking and suspendable
constructions accept or reject identically (same exception) and on
success derive identical REST, realtime, auth, storage and functions
URLs, identical schema and identical merged header mappings, with
identical effects on the heap. -/
theorem sync_async_observations_agree (url key : String) (o : ClientOptions) (σ : Heap) :
    syncObserved url key o σ = asyncObserved url key o σ := by
  unfold syncObserved asyncObserved SupabaseClient.init AsyncSupabaseClient.init
  by_cases h1 : url = ""
  · rw [if_pos h1, if_pos h1]
  by_cases h2 : key = ""
  · rw [if_neg h1, if_neg h1, if_pos h2, if_pos h2]
  by_cases h3 : reMatchUrlPattern url = false
  · rw [if_neg h1, if_neg h1, if_neg h2, if_neg h2, if_pos h3, if_pos h3]
  by_cases h4 : reMatchKeyPattern key = false
  · rw [if_neg h1, if_neg h1, if_neg h2, if_neg h2, if_neg h3, if_neg h3, if_pos h4, if_pos h4]
  rw [if_neg h1, if_neg h1, if_neg h2, if_neg h2, if_neg h3, if_neg h3, if_neg h4, if_neg h4]
  rw [show asyncFunctionsUrl = syncFunctionsUrl from rfl]
  cases hf : syncFunctionsUrl url with
  | error e => exact rfl
  | ok f => exact rfl

/-- C9: on both facade variants, table and from_ (and the on alias of
the suspendable variant) return the query-builder request builder for
the given name, targeting that table under the postgrest client schema. -/
theorem table_from_same_builder (c : SupabaseClient) (a : AsyncSupabaseClient) (name : String) :
    c.table name = c.from_ name ∧
    c.from_ name = c.postgrest.from_ name ∧
    (c.table name).table = name ∧
    (c.table name).schema = c.postgrest.schema ∧
    a.table name = a.on name ∧
    a.table name = a.from_ name ∧
    a.from_ name = a.postgrest.from_ name ∧
    (a.table name).table = name ∧
    (a.table name).schema = a.postgrest.schema :=
  ⟨rfl, rfl, rfl, rfl, rfl, rfl, rfl, rfl, rfl⟩

/-- C10: the base URL https://supabase.co passes all four validations,
yet both constructions raise the index error from the functions-URL
rewrite, because the URL splits into only two dot-separated parts. -/
theorem platform_short_host_index_error :
    ("https://supabase.co" : String) ≠ "" ∧
    ("a.b.c" : String) ≠ "" ∧
    reMatchUrlPattern "https://supabase.co" = true ∧
    reMatchKeyPattern "a.b.c" = true ∧
    obsError "https://supabase.co" "a.b.c" defaultOptions defaultHeap =
      some SupabaseError.indexError ∧
    obsErrorAsync "https://supabase.co" "a.b.c" defaultOptions defaultHeap =
      some SupabaseError.indexError := by
  decide
